import Mathlib

/-!
# Verification of the sgu-client request/pagination/error-normalization engine

Shallow embedding of the `sgu-client` Python library's core: the pagination
engine and error normalizer of `BaseClient` (`sgu_client/client/base.py`,
modelled from the specification since that module ships outside the checked
sources), together with the endpoint-client helpers that are present in the
sources (`sgu_client/client/levels/observed.py`,
`sgu_client/client/levels/modeled.py`).

JSON values are modelled by the inductive `Json`; Python dictionaries by
ordered association lists with first-match lookup and replace-in-place update,
matching `dict` semantics for the duplicate-free dictionaries produced by
JSON decoding and keyword arguments.
-/

/-- A decoded JSON value.  Numbers are modelled as integers: every numeric
field the engine inspects (`numberMatched`, `numberReturned`, `limit`,
`startIndex`) is integral. -/
inductive Json where
  | null : Json
  | bool (b : Bool) : Json
  | num (n : Int) : Json
  | str (s : String) : Json
  | arr (elems : List Json) : Json
  | obj (fields : List (String × Json)) : Json
deriving Repr

/-- First-match lookup in an association list (Python `dict.get`). -/
def lookupA {α : Type} : List (String × α) → String → Option α
  | [], _ => none
  | (k, v) :: rest, key => if k == key then some v else lookupA rest key

/-- Replace the first binding of `key` in place, or append a new binding
(Python `dict[key] = value` on a duplicate-free dict). -/
def assocSet {α : Type} : List (String × α) → String → α → List (String × α)
  | [], key, v => [(key, v)]
  | (k, w) :: rest, key, v =>
      if k == key then (key, v) :: rest else (k, w) :: assocSet rest key v

/-- Field lookup on a JSON value: `data.get(key)` when `data` is a dict,
`None` otherwise. -/
def Json.lookup : Json → String → Option Json
  | .obj fields, key => lookupA fields key
  | _, _ => none

/-- Field update on a JSON value; identity on non-objects (the engine only
updates values it has already checked to be objects). -/
def Json.insert : Json → String → Json → Json
  | .obj fields, key, v => .obj (assocSet fields key v)
  | j, _, _ => j

/-- `data["features"]` read leniently: the feature list when present and
list-valued, `[]` otherwise. -/
def getFeatures (j : Json) : List Json :=
  match j.lookup "features" with
  | some (.arr fs) => fs
  | _ => []

/-- Which phase of an HTTP call timed out. -/
inductive TimeoutPhase where
  | connect : TimeoutPhase
  | read : TimeoutPhase
deriving Repr, DecidableEq

/-- Modelled from the spec: the closed error taxonomy surfaced by the core
(`SGUTimeoutError`, `SGUConnectionError`, `SGUAPIError` and a generic
wrapper in the missing `sgu_client/exceptions.py`). -/
inductive SGUError where
  | timeout (phase : TimeoutPhase) : SGUError
  | connectionFailure : SGUError
  | apiError (status : Int) (payload : Json) : SGUError
  | generic (msg : String) : SGUError
deriving Repr

/-- The transport-library exceptions the normalizer distinguishes
(`requests.exceptions.ConnectTimeout`, `ReadTimeout`, `ConnectionError`, and
the generic `RequestException`), each carrying its message text. -/
inductive TransportException where
  | connectTimeout (msg : String) : TransportException
  | readTimeout (msg : String) : TransportException
  | connectionError (msg : String) : TransportException
  | requestException (msg : String) : TransportException
deriving Repr

/-- `cs` starts with the pattern `ps`. -/
def charsStartWith : List Char → List Char → Bool
  | _, [] => true
  | [], _ :: _ => false
  | c :: cs, p :: ps => c == p && charsStartWith cs ps

/-- `ps` occurs as a contiguous run somewhere in `cs`. -/
def charsContain : List Char → List Char → Bool
  | [], ps => ps.isEmpty
  | c :: cs, ps => charsStartWith (c :: cs) ps || charsContain cs ps

/-- `pat` occurs as a substring of `s` (Python `pat in s`). -/
def containsSubstr (s pat : String) : Bool :=
  charsContain s.data pat.data

/-- Modelled from the spec: a connection error's message matches a
read-timeout signature ("Read timed out" / "ReadTimeoutError"). -/
def readTimeoutMarker (msg : String) : Bool :=
  containsSubstr msg "Read timed out" || containsSubstr msg "ReadTimeoutError"

/-- Modelled from the spec: the error normalizer's exception classification
(missing `BaseClient._make_request` exception handlers).  A connect-phase
timeout becomes `Timeout{connect}`; a read-phase timeout becomes
`Timeout{read}`; a connection error is reclassified as `Timeout{read}` when
its message matches a read-timeout signature and becomes `ConnectionFailure`
otherwise; any other transport exception is wrapped generically. -/
def classifyException : TransportException → SGUError
  | .connectTimeout _ => .timeout .connect
  | .readTimeout _ => .timeout .read
  | .connectionError msg =>
      if readTimeoutMarker msg then .timeout .read else .connectionFailure
  | .requestException msg => .generic msg

/-- One raw HTTP response: status, decoded JSON body when decodable
(`response.json()` raising is modelled by `none`), and the raw text. -/
structure RawResponse where
  ok : Bool
  status : Int
  jsonBody : Option Json
  text : String
deriving Repr

/-- The outcome of one transport call: either the transport raised an
exception or a response came back. -/
inductive TransportOutcome where
  | exn (e : TransportException) : TransportOutcome
  | resp (r : RawResponse) : TransportOutcome
deriving Repr

/-- Modelled from the spec: one request/response round trip of the Request
Executor (missing `BaseClient._make_request`).  Exceptions are classified by
the error normalizer; a non-2xx response becomes `APIError` with the
response's status and a best-effort payload, falling back to
`{"error": response.text}` when the error body fails to decode as JSON. -/
def processOutcome : TransportOutcome → Except SGUError Json
  | .exn e => .error (classifyException e)
  | .resp r =>
      if r.ok then
        match r.jsonBody with
        | some j => .ok j
        | none => .error (.generic "invalid JSON in response")
      else
        .error (.apiError r.status (r.jsonBody.getD (.obj [("error", .str r.text)])))

/-- One HTTP request as recorded by the engine's trace: method, URL and the
query-parameter mapping that was sent. -/
structure PageRequest where
  method : String
  url : String
  params : List (String × Json)
deriving Repr

/-- Modelled from the spec: the default safety cap on the number of features
one logical fetch accumulates (matches the API's documented maximum page
size). -/
def DEFAULT_SAFETY_LIMIT : Int := 50000

/-- Modelled from the spec: the pagination loop of the missing
`BaseClient._handle_pagination`.  Each iteration requests the next page with
`startIndex` equal to the number of features accumulated so far and
`limit = min(remaining, perPage)` where `remaining = eff - accumulated`;
a raised error propagates immediately and discards the accumulator, an empty
page stops with success, and the loop ends once `eff` features have been
accumulated.  `pages` supplies the transport outcome of each successive
call; the loop consumes one per request. -/
def paginateLoop (url : String) (params : List (String × Json)) (perPage eff : Int)
    (acc : List Json) :
    List TransportOutcome → Except SGUError (List Json) × List PageRequest
  | [] => (.error (.generic "no response"), [])
  | o :: rest =>
      let count : Int := acc.length
      let nextParams :=
        assocSet (assocSet params "startIndex" (.num count)) "limit"
          (.num (min (eff - count) perPage))
      let req : PageRequest := ⟨"GET", url, nextParams⟩
      match processOutcome o with
      | .error e => (.error e, [req])
      | .ok pageBody =>
          let pageFeatures := getFeatures pageBody
          if pageFeatures.isEmpty then (.ok acc, [req])
          else
            let newAcc := acc ++ pageFeatures
            if eff ≤ (newAcc.length : Int) then (.ok newAcc, [req])
            else
              let next := paginateLoop url params perPage eff newAcc rest
              (next.1, req :: next.2)

/-- The merged envelope: a shallow copy of the first page's envelope with
`features` replaced by the accumulated sequence and `numberReturned` replaced
by the accumulated count. -/
def mergeEnvelope (body : Json) (fs : List Json) : Json :=
  (body.insert "features" (.arr fs)).insert "numberReturned" (.num fs.length)

/-- Whether a decoded body declares itself a FeatureCollection. -/
def isFeatureCollection (body : Json) : Bool :=
  match body.lookup "type" with
  | some (.str t) => t == "FeatureCollection"
  | _ => false

/-- Modelled from the spec: `BaseClient._handle_pagination` (missing from the
checked sources).  Pagination runs only when the decoded body is a
FeatureCollection whose `numberMatched` is a finite number and whose
`numberReturned` is below the effective limit
`min(numberMatched, user_requested_limit or DEFAULT_SAFETY_LIMIT)`; otherwise
the first page is returned as-is with no further requests.  The first page's
`numberReturned` (the previous page size when pagination starts) serves as
the per-page size for all subsequent pages, following the spec's next-page
formula `limit = min(remaining, previous_page_size_or_default)`. -/
def handlePagination (url : String) (params : List (String × Json)) (body : Json)
    (pages : List TransportOutcome) : Except SGUError Json × List PageRequest :=
  if isFeatureCollection body then
    match body.lookup "numberMatched" with
    | some (.num matched) =>
        let nRet : Int :=
          match body.lookup "numberReturned" with
          | some (.num r) => r
          | _ => (getFeatures body).length
        let userLimit : Option Int :=
          match lookupA params "limit" with
          | some (.num l) => if l == 0 then none else some l
          | _ => none
        let eff := min matched (userLimit.getD DEFAULT_SAFETY_LIMIT)
        if nRet < eff then
          let res := paginateLoop url params nRet eff (getFeatures body) pages
          match res.1 with
          | .ok fs => (.ok (mergeEnvelope body fs), res.2)
          | .error e => (.error e, res.2)
        else (.ok body, [])
    | _ => (.ok body, [])
  else (.ok body, [])

/-- Modelled from the spec: one logical fetch (`BaseClient.get` /
`BaseClient.post` down through `_make_request`).  The first transport outcome
answers the initial request; only GET responses are handed to the pagination
engine, which consumes the remaining outcomes.  The second component is the
trace of HTTP requests issued. -/
def clientRequest (method url : String) (params : List (String × Json)) :
    List TransportOutcome → Except SGUError Json × List PageRequest
  | [] => (.error (.generic "no response"), [])
  | o :: rest =>
      let req : PageRequest := ⟨method, url, params⟩
      match processOutcome o with
      | .error e => (.error e, [req])
      | .ok body =>
          if method == "GET" then
            let res := handlePagination url params body rest
            (res.1, req :: res.2)
          else (.ok body, [req])

/-- The feature list a transport outcome contributes to the merge: the `features`
of its decoded body when the call succeeds, `[]` otherwise. -/
def outcomeFeatures (o : TransportOutcome) : List Json :=
  match processOutcome o with
  | .ok body => getFeatures body
  | .error _ => []

/-- `ObservedGroundwaterLevelClient.get_station`
(`src/sgu_client/client/levels/observed.py`): the single-item extraction
applied to the decoded response of
`collections/stationer/items/{station_id}` — the API returns a
FeatureCollection even for single items; zero features raise a not-found
`ValueError`, two or more raise a multiple-returned `ValueError`. -/
def get_station (response : Json) (station_id : String) : Except String Json :=
  let features := getFeatures response
  if features.isEmpty then .error ("Station " ++ station_id ++ " not found")
  else if 1 < features.length then
    .error ("Multiple stations returned for ID " ++ station_id)
  else .ok (features.headD .null)

/-- `ObservedGroundwaterLevelClient.get_measurement`
(`src/sgu_client/client/levels/observed.py`): single-item extraction for
`collections/nivaer/items/{measurement_id}`. -/
def get_measurement (response : Json) (measurement_id : String) : Except String Json :=
  let features := getFeatures response
  if features.isEmpty then .error ("Measurement " ++ measurement_id ++ " not found")
  else if 1 < features.length then
    .error ("Multiple measurements returned for ID " ++ measurement_id)
  else .ok (features.headD .null)

/-- `ModeledGroundwaterLevelClient.get_area`
(`src/sgu_client/client/levels/modeled.py`): single-item extraction for
`collections/omraden/items/{area_id}`. -/
def get_area (response : Json) (area_id : String) : Except String Json :=
  let features := getFeatures response
  if features.isEmpty then .error ("Area " ++ area_id ++ " not found")
  else if 1 < features.length then
    .error ("Multiple areas returned for ID " ++ area_id)
  else .ok (features.headD .null)

/-- `ModeledGroundwaterLevelClient.get_level`
(`src/sgu_client/client/levels/modeled.py`): single-item extraction for
`collections/grundvattennivaer-tidigare/items/{level_id}`. -/
def get_level (response : Json) (level_id : String) : Except String Json :=
  let features := getFeatures response
  if features.isEmpty then .error ("Level " ++ level_id ++ " not found")
  else if 1 < features.length then
    .error ("Multiple levels returned for ID " ++ level_id)
  else .ok (features.headD .null)

/-- Modelled from the spec: the configuration surface consumed by the core
(missing `sgu_client/config.py`) — base URL, request timeout, max retry
count, user-agent string and the debug-logging flag. -/
structure SGUConfig where
  base_url : String
  timeout : Int
  max_retries : Int
  user_agent : String
  debug : Bool
deriving Repr, DecidableEq

/-- Modelled from the spec: the `BaseClient` as far as the endpoint clients
observe it — the owner of one configuration (the HTTP session it also owns is
out of scope of this embedding). -/
structure BaseClient where
  config : SGUConfig
deriving Repr, DecidableEq

/-- The fixed modeled-data base URL hard-coded in
`ModeledGroundwaterLevelClient.__init__`. -/
def MODELED_BASE_URL : String :=
  "https://api.sgu.se/oppnadata/grundvattennivaer-sgu-hype-omraden/ogc/features/v1/"

/-- `ModeledGroundwaterLevelClient.__init__`
(`src/sgu_client/client/levels/modeled.py`): builds a fresh `SGUConfig` whose
`base_url` is the fixed modeled-data URL, copying `timeout`, `max_retries`,
`user_agent` and `debug` from the given client's config, and wraps it in a
fresh `BaseClient`.  The result is the `_client` the endpoint methods use. -/
def ModeledGroundwaterLevelClient.init (base_client : BaseClient) : BaseClient :=
  ⟨⟨MODELED_BASE_URL, base_client.config.timeout, base_client.config.max_retries,
    base_client.config.user_agent, base_client.config.debug⟩⟩

/-- `v` is a Python list (`isinstance(value, list)`). -/
def Json.isList : Json → Bool
  | .arr _ => true
  | _ => false

/-- The elements of a JSON array, `[]` otherwise. -/
def Json.elems : Json → List Json
  | .arr xs => xs
  | _ => []

/-- Python `str()` restricted to the scalar values that appear as `bbox` and
`sortby` elements; nested containers are outside the model. -/
def Json.pyStr : Json → String
  | .str s => s
  | .num n => toString n
  | .bool b => if b then "True" else "False"
  | .null => "None"
  | .arr _ => ""
  | .obj _ => ""

/-- `ObservedGroundwaterLevelClient._build_query_params`
(`src/sgu_client/client/levels/observed.py`): drops `None`-valued keyword
arguments, comma-joins list-valued `bbox` (elements via `str()`) and
list-valued `sortby`, and passes every other value through unchanged.
Keyword arguments are modelled as an association list (keys are distinct in
Python `**kwargs`). -/
def ObservedGroundwaterLevelClient.build_query_params :
    List (String × Option Json) → List (String × Json)
  | [] => []
  | (key, value) :: rest =>
      match value with
      | none => ObservedGroundwaterLevelClient.build_query_params rest
      | some v =>
          (key,
            if key == "bbox" && v.isList then
              .str (String.intercalate "," (v.elems.map Json.pyStr))
            else if key == "sortby" && v.isList then
              .str (String.intercalate "," (v.elems.map Json.pyStr))
            else v) :: ObservedGroundwaterLevelClient.build_query_params rest

/-- `ModeledGroundwaterLevelClient._build_query_params`
(`src/sgu_client/client/levels/modeled.py`): textually identical to the
observed client's helper. -/
def ModeledGroundwaterLevelClient.build_query_params :
    List (String × Option Json) → List (String × Json)
  | [] => []
  | (key, value) :: rest =>
      match value with
      | none => ModeledGroundwaterLevelClient.build_query_params rest
      | some v =>
          (key,
            if key == "bbox" && v.isList then
              .str (String.intercalate "," (v.elems.map Json.pyStr))
            else if key == "sortby" && v.isList then
              .str (String.intercalate "," (v.elems.map Json.pyStr))
            else v) :: ModeledGroundwaterLevelClient.build_query_params rest

/-! ## Helper lemmas -/

theorem lookupA_assocSet {α : Type} (fields : List (String × α)) (key : String) (v : α)
    (key' : String) :
    lookupA (assocSet fields key v) key' =
      if key' = key then some v else lookupA fields key' := by
  induction fields with
  | nil =>
      simp only [assocSet, lookupA, beq_iff_eq]
      by_cases h : key' = key
      · subst h; simp
      · rw [if_neg (fun hh => h hh.symm), if_neg h]
  | cons kv rest ih =>
      obtain ⟨k, w⟩ := kv
      simp only [assocSet, beq_iff_eq]
      by_cases hk : k = key
      · rw [if_pos hk]
        simp only [lookupA, beq_iff_eq]
        by_cases h : key' = key
        · rw [if_pos h.symm, if_pos h]
        · rw [if_neg (fun hh : key = key' => h hh.symm), if_neg h,
            if_neg (fun hh : k = key' => h (hh.symm.trans hk))]
      · rw [if_neg hk]
        simp only [lookupA, beq_iff_eq, ih]
        by_cases h : k = key'
        · simp only [if_pos h]
          rw [if_neg (fun hh : key' = key => hk (h.trans hh))]
        · simp only [if_neg h]

theorem lookup_insert_obj (fields : List (String × Json)) (key : String) (v : Json)
    (key' : String) :
    ((Json.obj fields).insert key v).lookup key' =
      if key' = key then some v else lookupA fields key' := by
  simp only [Json.insert, Json.lookup, lookupA_assocSet]

theorem isFeatureCollection_obj (body : Json) (h : isFeatureCollection body = true) :
    ∃ fields, body = Json.obj fields := by
  cases body with
  | obj fields => exact ⟨fields, rfl⟩
  | null => simp [isFeatureCollection, Json.lookup] at h
  | bool b => simp [isFeatureCollection, Json.lookup] at h
  | num n => simp [isFeatureCollection, Json.lookup] at h
  | str s => simp [isFeatureCollection, Json.lookup] at h
  | arr xs => simp [isFeatureCollection, Json.lookup] at h

/-! ## C5: error-normalizer classification -/

/-- C5: the error normalizer maps a connect-phase timeout to
`Timeout{connect}`; a read-phase timeout to `Timeout{read}`; a connection
error whose message contains a read-timeout marker ("Read timed out" or
"ReadTimeoutError") to `Timeout{read}` rather than `ConnectionFailure`
(timeout-message pattern matching takes priority); and any other connection
error to `ConnectionFailure`. -/
theorem error_normalizer_classification :
    (∀ msg, classifyException (.connectTimeout msg) = .timeout .connect) ∧
    (∀ msg, classifyException (.readTimeout msg) = .timeout .read) ∧
    (∀ msg, (containsSubstr msg "Read timed out" || containsSubstr msg "ReadTimeoutError") = true →
      classifyException (.connectionError msg) = .timeout .read) ∧
    (∀ msg, (containsSubstr msg "Read timed out" || containsSubstr msg "ReadTimeoutError") = false →
      classifyException (.connectionError msg) = .connectionFailure) := by
  refine ⟨fun msg => rfl, fun msg => rfl, fun msg h => ?_, fun msg h => ?_⟩
  · simp [classifyException, readTimeoutMarker, h]
  · simp [classifyException, readTimeoutMarker, h]

/-- Witness for C5 at the messages exercised by the repository's tests. -/
theorem error_normalizer_classification_witness :
    classifyException (.connectTimeout "Connection timeout") = .timeout .connect ∧
    classifyException (.connectionError "Read timed out") = .timeout .read ∧
    classifyException (.connectionError "ReadTimeoutError in connection") = .timeout .read ∧
    classifyException (.connectionError "Network unreachable") = .connectionFailure := by
  refine ⟨error_normalizer_classification.1 "Connection timeout",
    error_normalizer_classification.2.2.1 "Read timed out" (by decide),
    error_normalizer_classification.2.2.1 "ReadTimeoutError in connection" (by decide),
    error_normalizer_classification.2.2.2 "Network unreachable" (by decide)⟩

/-! ## C9: modeled client builds a fresh configuration -/

/-- C9: `ModeledGroundwaterLevelClient.__init__` constructs a fresh
`BaseClient` whose config has the fixed modeled-data base URL, copying only
`timeout`, `max_retries`, `user_agent` and `debug` from the given client's
config; the given client's base URL never influences the result. -/
theorem modeled_client_fresh_config :
    (∀ bc : BaseClient,
      (ModeledGroundwaterLevelClient.init bc).config.base_url = MODELED_BASE_URL ∧
      (ModeledGroundwaterLevelClient.init bc).config.timeout = bc.config.timeout ∧
      (ModeledGroundwaterLevelClient.init bc).config.max_retries = bc.config.max_retries ∧
      (ModeledGroundwaterLevelClient.init bc).config.user_agent = bc.config.user_agent ∧
      (ModeledGroundwaterLevelClient.init bc).config.debug = bc.config.debug) ∧
    (∀ (u1 u2 ua : String) (t r : Int) (d : Bool),
      ModeledGroundwaterLevelClient.init ⟨⟨u1, t, r, ua, d⟩⟩ =
        ModeledGroundwaterLevelClient.init ⟨⟨u2, t, r, ua, d⟩⟩) :=
  ⟨fun _ => ⟨rfl, rfl, rfl, rfl, rfl⟩, fun _ _ _ _ _ _ => rfl⟩

/-! ## C10: query-parameter construction -/

theorem bqp_lookup_transform (params : List (String × Option Json)) (k : String)
    (v : Json) (h : lookupA params k = some (some v)) :
    lookupA (ObservedGroundwaterLevelClient.build_query_params params) k =
      some (if k == "bbox" && v.isList then
              .str (String.intercalate "," (v.elems.map Json.pyStr))
            else if k == "sortby" && v.isList then
              .str (String.intercalate "," (v.elems.map Json.pyStr))
            else v) := by
  induction params with
  | nil => simp [lookupA] at h
  | cons kv rest ih =>
      obtain ⟨key, val⟩ := kv
      by_cases hk : key = k
      · subst hk
        simp only [lookupA, beq_self_eq_true, if_true] at h
        cases val with
        | none => exact absurd h (by simp)
        | some w =>
            obtain rfl : w = v := by simpa using h
            simp [ObservedGroundwaterLevelClient.build_query_params, lookupA]
      · cases val with
        | none =>
            simp only [lookupA, beq_iff_eq, if_neg hk] at h
            simpa [ObservedGroundwaterLevelClient.build_query_params] using ih h
        | some w =>
            simp only [lookupA, beq_iff_eq, if_neg hk] at h
            simp only [ObservedGroundwaterLevelClient.build_query_params, lookupA,
              beq_iff_eq, if_neg hk]
            exact ih h

theorem bqp_key_mem_iff (params : List (String × Option Json)) (k : String) :
    (∃ w, lookupA (ObservedGroundwaterLevelClient.build_query_params params) k = some w)
      ↔ (∃ v, (k, some v) ∈ params) := by
  induction params with
  | nil => simp [ObservedGroundwaterLevelClient.build_query_params, lookupA]
  | cons kv rest ih =>
      obtain ⟨key, val⟩ := kv
      cases val with
      | none =>
          simp only [ObservedGroundwaterLevelClient.build_query_params, List.mem_cons]
          constructor
          · intro hw
            obtain ⟨v, hv⟩ := ih.mp hw
            exact ⟨v, Or.inr hv⟩
          · rintro ⟨v, hv | hv⟩
            · exact absurd (Prod.mk.injEq .. ▸ hv).2 (by simp)
            · exact ih.mpr ⟨v, hv⟩
      | some w =>
          by_cases hk : key = k
          · subst hk
            simp only [ObservedGroundwaterLevelClient.build_query_params, lookupA,
              beq_self_eq_true, if_true, List.mem_cons]
            exact ⟨fun _ => ⟨w, Or.inl rfl⟩, fun _ => ⟨_, rfl⟩⟩
          · simp only [ObservedGroundwaterLevelClient.build_query_params, lookupA,
              beq_iff_eq, if_neg hk, List.mem_cons]
            constructor
            · intro hw
              obtain ⟨v, hv⟩ := ih.mp hw
              exact ⟨v, Or.inr hv⟩
            · rintro ⟨v, hv | hv⟩
              · exact absurd (Prod.mk.injEq .. ▸ hv).1.symm hk
              · exact ih.mpr ⟨v, hv⟩

theorem bqp_modeled_eq_observed (params : List (String × Option Json)) :
    ModeledGroundwaterLevelClient.build_query_params params =
      ObservedGroundwaterLevelClient.build_query_params params := by
  induction params with
  | nil => rfl
  | cons kv rest ih =>
      obtain ⟨key, val⟩ := kv
      cases val with
      | none =>
          simpa [ModeledGroundwaterLevelClient.build_query_params,
            ObservedGroundwaterLevelClient.build_query_params] using ih
      | some w =>
          simp only [ModeledGroundwaterLevelClient.build_query_params,
            ObservedGroundwaterLevelClient.build_query_params, ih]

/-- C10: `_build_query_params` (identical in the observed and modeled level
clients) keeps a key exactly when its input value is not `None`; a
list-valued `bbox` becomes the comma-joined string of its elements' `str()`
forms, a list-valued `sortby` (whose elements are strings) becomes the
comma-joined string of its elements, and every other non-`None` value passes
through unchanged. -/
theorem build_query_params_characterization :
    (∀ params, ModeledGroundwaterLevelClient.build_query_params params =
      ObservedGroundwaterLevelClient.build_query_params params) ∧
    (∀ params k,
      (∃ w, lookupA (ObservedGroundwaterLevelClient.build_query_params params) k = some w)
        ↔ (∃ v, (k, some v) ∈ params)) ∧
    (∀ params xs, lookupA params "bbox" = some (some (Json.arr xs)) →
      lookupA (ObservedGroundwaterLevelClient.build_query_params params) "bbox" =
        some (.str (String.intercalate "," (xs.map Json.pyStr)))) ∧
    (∀ params xs, lookupA params "sortby" = some (some (Json.arr xs)) →
      (∀ x ∈ xs, ∃ s, x = Json.str s) →
      lookupA (ObservedGroundwaterLevelClient.build_query_params params) "sortby" =
        some (.str (String.intercalate "," (xs.map Json.pyStr)))) ∧
    (∀ params k v, lookupA params k = some (some v) →
      (k = "bbox" → v.isList = false) → (k = "sortby" → v.isList = false) →
      lookupA (ObservedGroundwaterLevelClient.build_query_params params) k = some v) := by
  refine ⟨bqp_modeled_eq_observed, bqp_key_mem_iff, fun params xs h => ?_,
    fun params xs h _ => ?_, fun params k v h hb hs => ?_⟩
  · simpa [Json.isList, Json.elems] using bqp_lookup_transform params "bbox" (.arr xs) h
  · simpa [Json.isList, Json.elems] using bqp_lookup_transform params "sortby" (.arr xs) h
  · have := bqp_lookup_transform params k v h
    by_cases hkb : k = "bbox"
    · subst hkb
      simpa [hb rfl] using this
    · by_cases hks : k = "sortby"
      · subst hks
        simpa [hs rfl] using this
      · simpa [hkb, hks] using this

/-! ## C4: unknown / absent numberMatched skips pagination -/

/-- C4: when the first page's `numberMatched` is absent or not a number (for
example the string "unknown"), pagination is skipped entirely — the engine
issues no further request and returns the first page as-is — regardless of
the parameters, and the whole GET makes exactly one HTTP call. -/
theorem pagination_unknown_number_matched_skip :
    ∀ (url : String) (params : List (String × Json)) (body : Json),
      (∀ m : Int, body.lookup "numberMatched" ≠ some (.num m)) →
      (∀ pages, handlePagination url params body pages = (.ok body, [])) ∧
      (∀ o rest, processOutcome o = .ok body →
        clientRequest "GET" url params (o :: rest) = (.ok body, [⟨"GET", url, params⟩])) := by
  intro url params body h
  have hp : ∀ pages, handlePagination url params body pages = (.ok body, []) := by
    intro pages
    unfold handlePagination
    cases hfc : isFeatureCollection body with
    | false => simp
    | true =>
        rw [if_pos rfl]
        cases hnm : body.lookup "numberMatched" with
        | none => rfl
        | some j =>
            cases j with
            | num m => exact absurd hnm (h m)
            | null => rfl
            | bool b => rfl
            | str s => rfl
            | arr xs => rfl
            | obj fs => rfl
  refine ⟨hp, fun o rest h2 => ?_⟩
  simp [clientRequest, h2, hp rest]

/-- Witness for C4: the repository's mock response with
`numberMatched = "unknown"`, ten features and no explicit limit makes one
call and comes back unchanged. -/
theorem pagination_unknown_number_matched_skip_witness :
    clientRequest "GET" "/test" []
        [.resp ⟨true, 200,
          some (.obj [("type", .str "FeatureCollection"),
            ("features", .arr (List.replicate 10 .null)),
            ("numberReturned", .num 10), ("numberMatched", .str "unknown")]), ""⟩] =
      (.ok (.obj [("type", .str "FeatureCollection"),
        ("features", .arr (List.replicate 10 .null)),
        ("numberReturned", .num 10), ("numberMatched", .str "unknown")]),
        [⟨"GET", "/test", []⟩]) := by
  exact (pagination_unknown_number_matched_skip "/test" []
    (.obj [("type", .str "FeatureCollection"),
      ("features", .arr (List.replicate 10 .null)),
      ("numberReturned", .num 10), ("numberMatched", .str "unknown")])
    (fun m => by simp [Json.lookup, lookupA])).2 _ [] rfl

/-! ## C8: non-FeatureCollection bodies and POST requests are never paginated -/

/-- C8: a decoded body that is not a FeatureCollection is returned unmodified
with no pagination, and a POST request is never paginated even when its body
is a FeatureCollection with `numberReturned < numberMatched`; in both cases
exactly one HTTP call is made. -/
theorem non_fc_and_post_never_paginated :
    (∀ (url : String) (params : List (String × Json)) (body : Json)
      (pages : List TransportOutcome), isFeatureCollection body = false →
      handlePagination url params body pages = (.ok body, [])) ∧
    (∀ (url : String) (params : List (String × Json)) (body : Json) o rest,
      processOutcome o = .ok body → isFeatureCollection body = false →
      clientRequest "GET" url params (o :: rest) = (.ok body, [⟨"GET", url, params⟩])) ∧
    (∀ (url : String) (params : List (String × Json)) (body : Json) o rest,
      processOutcome o = .ok body →
      clientRequest "POST" url params (o :: rest) = (.ok body, [⟨"POST", url, params⟩])) := by
  have hp : ∀ (url : String) (params : List (String × Json)) (body : Json)
      (pages : List TransportOutcome), isFeatureCollection body = false →
      handlePagination url params body pages = (.ok body, []) := by
    intro url params body pages hfc
    simp [handlePagination, hfc]
  refine ⟨hp, fun url params body o rest h2 hfc => ?_, fun url params body o rest h2 => ?_⟩
  · simp [clientRequest, h2, hp url params body rest hfc]
  · simp [clientRequest, h2]

/-- Witness for C8: the non-GeoJSON mock body comes back unchanged from a
GET in one call, and the two-hundred-matched FeatureCollection mock is not
paginated by a POST. -/
theorem non_fc_and_post_never_paginated_witness :
    clientRequest "GET" "/test" []
        [.resp ⟨true, 200,
          some (.obj [("message", .str "Hello World"), ("numberReturned", .num 10),
            ("numberMatched", .num 100)]), ""⟩] =
      (.ok (.obj [("message", .str "Hello World"), ("numberReturned", .num 10),
        ("numberMatched", .num 100)]), [⟨"GET", "/test", []⟩]) ∧
    clientRequest "POST" "/test" []
        [.resp ⟨true, 200,
          some (.obj [("type", .str "FeatureCollection"),
            ("features", .arr (List.replicate 100 .null)),
            ("numberReturned", .num 100), ("numberMatched", .num 200)]), ""⟩] =
      (.ok (.obj [("type", .str "FeatureCollection"),
        ("features", .arr (List.replicate 100 .null)),
        ("numberReturned", .num 100), ("numberMatched", .num 200)]),
        [⟨"POST", "/test", []⟩]) :=
  ⟨non_fc_and_post_never_paginated.2.1 "/test" []
      (.obj [("message", .str "Hello World"), ("numberReturned", .num 10),
        ("numberMatched", .num 100)]) _ [] rfl rfl,
    non_fc_and_post_never_paginated.2.2 "/test" []
      (.obj [("type", .str "FeatureCollection"),
        ("features", .arr (List.replicate 100 .null)),
        ("numberReturned", .num 100), ("numberMatched", .num 200)]) _ [] rfl⟩

/-! ## C6: non-2xx during pagination raises APIError and aborts -/

/-- C6: a non-2xx response on any page surfaces as `APIError` carrying the
response's status and a best-effort payload (the decoded JSON error body, or
`{"error": response.text}` when decoding fails); the pagination loop stops at
that request, discarding the accumulated features, and the error propagates
unchanged through the top-level GET, which returns no partial result. -/
theorem pagination_api_error_propagation :
    (∀ r : RawResponse, r.ok = false → r.jsonBody = none →
      processOutcome (.resp r) =
        .error (.apiError r.status (.obj [("error", .str r.text)]))) ∧
    (∀ (r : RawResponse) (j : Json), r.ok = false → r.jsonBody = some j →
      processOutcome (.resp r) = .error (.apiError r.status j)) ∧
    (∀ (url : String) (params : List (String × Json)) (perPage eff : Int)
      (acc : List Json) (o : TransportOutcome) (rest : List TransportOutcome)
      (e : SGUError), processOutcome o = .error e →
      paginateLoop url params perPage eff acc (o :: rest) =
        (.error e,
          [⟨"GET", url,
            assocSet (assocSet params "startIndex" (.num acc.length)) "limit"
              (.num (min (eff - acc.length) perPage))⟩])) ∧
    (∀ (url : String) (params : List (String × Json)) (body : Json)
      (o : TransportOutcome) (rest : List TransportOutcome) (e : SGUError)
      (reqs : List PageRequest), processOutcome o = .ok body →
      handlePagination url params body rest = (.error e, reqs) →
      clientRequest "GET" url params (o :: rest) =
        (.error e, ⟨"GET", url, params⟩ :: reqs)) := by
  refine ⟨fun r h1 h2 => ?_, fun r j h1 h2 => ?_,
    fun url params perPage eff acc o rest e h => ?_, fun url params body o rest e reqs h1 h2 => ?_⟩
  · simp [processOutcome, h1, h2]
  · simp [processOutcome, h1, h2]
  · simp [paginateLoop, h]
  · simp [clientRequest, h1, h2]

/-- Witness for C6 at the repository's test scenario: a first page with one
feature and `numberMatched = 3` under `limit = 100`, followed by a 500
response whose body fails to decode with raw text "Internal Server Error";
the loop aborts at that request and the whole GET surfaces the `APIError`
with the fallback payload, returning no partial result. -/
theorem pagination_api_error_propagation_witness :
    paginateLoop "/test" [("limit", .num 100)] 1 3 [.obj [("id", .str "1")]]
        [.resp ⟨false, 500, none, "Internal Server Error"⟩] =
      (.error (.apiError 500 (.obj [("error", .str "Internal Server Error")])),
        [⟨"GET", "/test", [("limit", .num 1), ("startIndex", .num 1)]⟩]) ∧
    clientRequest "GET" "/test" [("limit", .num 100)]
        [.resp ⟨true, 200,
          some (.obj [("type", .str "FeatureCollection"),
            ("features", .arr [.obj [("id", .str "1")]]),
            ("numberMatched", .num 3), ("numberReturned", .num 1)]), ""⟩,
         .resp ⟨false, 500, none, "Internal Server Error"⟩] =
      (.error (.apiError 500 (.obj [("error", .str "Internal Server Error")])),
        [⟨"GET", "/test", [("limit", .num 100)]⟩,
         ⟨"GET", "/test", [("limit", .num 1), ("startIndex", .num 1)]⟩]) :=
  ⟨pagination_api_error_propagation.2.2.1 "/test" [("limit", .num 100)] 1 3
      [.obj [("id", .str "1")]] (.resp ⟨false, 500, none, "Internal Server Error"⟩) []
      (.apiError 500 (.obj [("error", .str "Internal Server Error")]))
      (pagination_api_error_propagation.1 ⟨false, 500, none, "Internal Server Error"⟩ rfl rfl),
    pagination_api_error_propagation.2.2.2 "/test" [("limit", .num 100)]
      (.obj [("type", .str "FeatureCollection"),
        ("features", .arr [.obj [("id", .str "1")]]),
        ("numberMatched", .num 3), ("numberReturned", .num 1)])
      (.resp ⟨true, 200,
        some (.obj [("type", .str "FeatureCollection"),
          ("features", .arr [.obj [("id", .str "1")]]),
          ("numberMatched", .num 3), ("numberReturned", .num 1)]), ""⟩)
      [.resp ⟨false, 500, none, "Internal Server Error"⟩]
      (.apiError 500 (.obj [("error", .str "Internal Server Error")]))
      [⟨"GET", "/test", [("limit", .num 1), ("startIndex", .num 1)]⟩] rfl rfl⟩

/-! ## Pagination-engine lemmas -/

theorem lookup_mergeEnvelope (fields : List (String × Json)) (fs : List Json)
    (key : String) :
    (mergeEnvelope (Json.obj fields) fs).lookup key =
      if key = "numberReturned" then some (.num (fs.length : Int))
      else if key = "features" then some (.arr fs)
      else lookupA fields key := by
  simp only [mergeEnvelope, Json.insert, Json.lookup, lookupA_assocSet]

theorem clientRequest_get_ok (url : String) (params : List (String × Json))
    (body : Json) (o : TransportOutcome) (rest : List TransportOutcome)
    (ho : processOutcome o = .ok body) :
    clientRequest "GET" url params (o :: rest) =
      ((handlePagination url params body rest).1,
        ⟨"GET", url, params⟩ :: (handlePagination url params body rest).2) := by
  simp [clientRequest, ho]

theorem handlePagination_run (url : String) (params : List (String × Json))
    (body : Json) (pages : List TransportOutcome) (matched nRet uLim : Int)
    (hfc : isFeatureCollection body = true)
    (hm : body.lookup "numberMatched" = some (.num matched))
    (hr : body.lookup "numberReturned" = some (.num nRet))
    (hl : lookupA params "limit" = some (.num uLim)) (hl0 : ¬ uLim = 0)
    (hlt : nRet < min matched uLim) :
    handlePagination url params body pages =
      ((paginateLoop url params nRet (min matched uLim) (getFeatures body) pages).1.map
          (mergeEnvelope body),
        (paginateLoop url params nRet (min matched uLim) (getFeatures body) pages).2) := by
  unfold handlePagination
  rw [if_pos hfc]
  simp only [hm, hr, hl, beq_iff_eq, if_neg hl0, Option.getD_some, if_pos hlt]
  cases hres : (paginateLoop url params nRet (min matched uLim) (getFeatures body) pages).1 with
  | ok fs => simp [hres, Except.map]
  | error e => simp [hres, Except.map]

theorem paginateLoop_step_done (url : String) (params : List (String × Json))
    (perPage eff : Int) (acc : List Json) (o : TransportOutcome)
    (rest : List TransportOutcome) (body : Json)
    (ho : processOutcome o = .ok body) (hne : getFeatures body ≠ [])
    (hstop : eff ≤ ((acc ++ getFeatures body).length : Int)) :
    paginateLoop url params perPage eff acc (o :: rest) =
      (.ok (acc ++ getFeatures body),
        [⟨"GET", url,
          assocSet (assocSet params "startIndex" (.num (acc.length : Int))) "limit"
            (.num (min (eff - (acc.length : Int)) perPage))⟩]) := by
  simp only [paginateLoop, ho]
  rw [if_neg (by simpa using hne), if_pos hstop]

theorem paginateLoop_step_empty (url : String) (params : List (String × Json))
    (perPage eff : Int) (acc : List Json) (o : TransportOutcome)
    (rest : List TransportOutcome) (body : Json)
    (ho : processOutcome o = .ok body) (hemp : getFeatures body = []) :
    paginateLoop url params perPage eff acc (o :: rest) =
      (.ok acc,
        [⟨"GET", url,
          assocSet (assocSet params "startIndex" (.num (acc.length : Int))) "limit"
            (.num (min (eff - (acc.length : Int)) perPage))⟩]) := by
  simp only [paginateLoop, ho, hemp]
  simp

theorem paginateLoop_step_continue (url : String) (params : List (String × Json))
    (perPage eff : Int) (acc : List Json) (o : TransportOutcome)
    (rest : List TransportOutcome) (body : Json)
    (ho : processOutcome o = .ok body) (hne : getFeatures body ≠ [])
    (hmore : ((acc ++ getFeatures body).length : Int) < eff) :
    paginateLoop url params perPage eff acc (o :: rest) =
      ((paginateLoop url params perPage eff (acc ++ getFeatures body) rest).1,
        ⟨"GET", url,
          assocSet (assocSet params "startIndex" (.num (acc.length : Int))) "limit"
            (.num (min (eff - (acc.length : Int)) perPage))⟩ ::
          (paginateLoop url params perPage eff (acc ++ getFeatures body) rest).2) := by
  simp only [paginateLoop, ho]
  rw [if_neg (by simpa using hne), if_neg (by exact not_le.mpr hmore)]

theorem paginateLoop_ok_shape (url : String) (params : List (String × Json))
    (perPage eff : Int) :
    ∀ (pages : List TransportOutcome) (acc fs : List Json),
      (paginateLoop url params perPage eff acc pages).1 = .ok fs →
      ∃ k : Nat, fs = acc ++ (((pages.take k).map outcomeFeatures).flatten) := by
  intro pages
  induction pages with
  | nil =>
      intro acc fs h
      simp [paginateLoop] at h
  | cons o rest ih =>
      intro acc fs h
      simp only [paginateLoop] at h
      cases hpo : processOutcome o with
      | error e => rw [hpo] at h; simp at h
      | ok body =>
          rw [hpo] at h
          simp only at h
          by_cases hemp : (getFeatures body).isEmpty
          · rw [if_pos hemp] at h
            simp only at h
            obtain rfl : acc = fs := by simpa using h
            exact ⟨0, by simp⟩
          · rw [if_neg hemp] at h
            by_cases hdone : eff ≤ (((acc ++ getFeatures body).length : Nat) : Int)
            · rw [if_pos hdone] at h
              simp only at h
              obtain rfl : acc ++ getFeatures body = fs := by simpa using h
              exact ⟨1, by simp [outcomeFeatures, hpo]⟩
            · rw [if_neg hdone] at h
              simp only at h
              obtain ⟨k, hk⟩ := ih (acc ++ getFeatures body) fs (by simpa using h)
              exact ⟨k + 1, by simp [hk, outcomeFeatures, hpo, List.append_assoc]⟩

theorem handlePagination_ok_shape (url : String) (params : List (String × Json))
    (body : Json) (pages : List TransportOutcome) (merged : Json)
    (req : PageRequest) (reqs : List PageRequest)
    (h : handlePagination url params body pages = (.ok merged, req :: reqs)) :
    ∃ (fields : List (String × Json)) (fs : List Json) (k : Nat),
      body = .obj fields ∧ merged = mergeEnvelope body fs ∧
      fs = getFeatures body ++ (((pages.take k).map outcomeFeatures).flatten) := by
  unfold handlePagination at h
  cases hfc : isFeatureCollection body with
  | false => rw [if_neg (by simp [hfc])] at h; simp at h
  | true =>
      obtain ⟨fields, rfl⟩ := isFeatureCollection_obj body hfc
      rw [if_pos hfc] at h
      cases hm : (Json.obj fields).lookup "numberMatched" with
      | none => rw [hm] at h; simp at h
      | some j =>
          rw [hm] at h
          cases j with
          | num matched =>
              simp only at h
              by_cases hlt :
                  (match (Json.obj fields).lookup "numberReturned" with
                    | some (.num r) => r
                    | _ => ((getFeatures (Json.obj fields)).length : Int)) <
                  min matched
                    ((match lookupA params "limit" with
                      | some (.num l) => if (l == 0) = true then none else some l
                      | _ => none).getD DEFAULT_SAFETY_LIMIT)
              · rw [if_pos hlt] at h
                cases hres : (paginateLoop url params
                    (match (Json.obj fields).lookup "numberReturned" with
                      | some (.num r) => r
                      | _ => ((getFeatures (Json.obj fields)).length : Int))
                    (min matched
                      ((match lookupA params "limit" with
                        | some (.num l) => if (l == 0) = true then none else some l
                        | _ => none).getD DEFAULT_SAFETY_LIMIT))
                    (getFeatures (Json.obj fields)) pages).1 with
                | ok fs =>
                    rw [hres] at h
                    simp only at h
                    obtain ⟨k, hk⟩ := paginateLoop_ok_shape url params _ _ pages _ fs hres
                    have h1 : mergeEnvelope (Json.obj fields) fs = merged := by
                      have h2 := congrArg Prod.fst h
                      simpa using h2
                    exact ⟨fields, fs, k, rfl, h1.symm, hk⟩
                | error e => rw [hres] at h; simp at h
              · rw [if_neg hlt] at h
                simp at h
          | null => simp at h
          | bool b => simp at h
          | str s => simp at h
          | arr xs => simp at h
          | obj fs => simp at h

/-! ## C2: merged envelope = first page with features and numberReturned replaced -/

/-- C2: whenever pagination actually ran (at least one follow-up request) and
completed successfully, the merged envelope is the first page's envelope with
`features` replaced by the concatenation of all pages' features in first-seen
page order and `numberReturned` replaced by the accumulated count; every
other field of the first page's envelope is preserved verbatim. -/
theorem pagination_merged_envelope_frame :
    ∀ (url : String) (params : List (String × Json)) (body : Json)
      (pages : List TransportOutcome) (merged : Json) (req : PageRequest)
      (reqs : List PageRequest),
      handlePagination url params body pages = (.ok merged, req :: reqs) →
      ∃ fs : List Json,
        merged = mergeEnvelope body fs ∧
        merged.lookup "features" = some (.arr fs) ∧
        merged.lookup "numberReturned" = some (.num (fs.length : Int)) ∧
        (∃ k : Nat,
          fs = getFeatures body ++ (((pages.take k).map outcomeFeatures).flatten)) ∧
        (∀ key, key ≠ "features" → key ≠ "numberReturned" →
          merged.lookup key = body.lookup key) := by
  intro url params body pages merged req reqs h
  obtain ⟨fields, fs, k, hb, hm, hk⟩ :=
    handlePagination_ok_shape url params body pages merged req reqs h
  subst hb
  subst hm
  refine ⟨fs, rfl, ?_, ?_, ⟨k, hk⟩, ?_⟩
  · rw [lookup_mergeEnvelope]
    simp
  · rw [lookup_mergeEnvelope]
    simp
  · intro key h1 h2
    rw [lookup_mergeEnvelope, if_neg h2, if_neg h1]
    simp [Json.lookup]

/-- First-page envelope of the two-page merge scenario exercised by the
repository's metadata-passthrough test. -/
def c2Body : Json :=
  .obj [("type", .str "FeatureCollection"),
    ("features", .arr [.str "f1", .str "f2"]),
    ("numberReturned", .num 2), ("numberMatched", .num 3),
    ("timeStamp", .str "2024-01-01T12:00:00Z"), ("links", .arr []),
    ("crs", .str "EPSG:4326")]

/-- Second-page outcome of the two-page merge scenario. -/
def c2PageOutcome : TransportOutcome :=
  .resp ⟨true, 200,
    some (.obj [("type", .str "FeatureCollection"),
      ("features", .arr [.str "f3"]),
      ("numberReturned", .num 1), ("numberMatched", .num 3)]), ""⟩

/-- Merged envelope of the two-page merge scenario. -/
def c2Merged : Json :=
  .obj [("type", .str "FeatureCollection"),
    ("features", .arr [.str "f1", .str "f2", .str "f3"]),
    ("numberReturned", .num 3), ("numberMatched", .num 3),
    ("timeStamp", .str "2024-01-01T12:00:00Z"), ("links", .arr []),
    ("crs", .str "EPSG:4326")]

/-- The single follow-up request of the two-page merge scenario. -/
def c2Req : PageRequest :=
  ⟨"GET", "/test", [("limit", .num 1), ("startIndex", .num 2)]⟩

/-- Witness for C2: a two-page merge (2 features then 1 feature against
`numberMatched = 3`) replaces `features` and `numberReturned` and preserves
`timeStamp`, `links` and `crs` verbatim. -/
theorem pagination_merged_envelope_frame_witness :
    handlePagination "/test" [("limit", .num 100)] c2Body [c2PageOutcome] =
      (.ok c2Merged, [c2Req]) ∧
    (∃ fs : List Json,
      c2Merged = mergeEnvelope c2Body fs ∧
      c2Merged.lookup "features" = some (.arr fs) ∧
      c2Merged.lookup "numberReturned" = some (.num (fs.length : Int)) ∧
      (∃ k : Nat, fs = getFeatures c2Body ++
        ((([c2PageOutcome].take k).map outcomeFeatures).flatten)) ∧
      (∀ key, key ≠ "features" → key ≠ "numberReturned" →
        c2Merged.lookup key = c2Body.lookup key)) :=
  ⟨rfl, pagination_merged_envelope_frame "/test" [("limit", .num 100)] c2Body
    [c2PageOutcome] c2Merged c2Req [] rfl⟩

/-! ## C1: next-page request parameters -/

theorem paginateLoop_trace_params (url : String) (params : List (String × Json))
    (perPage eff : Int) :
    ∀ (pages : List TransportOutcome) (acc : List Json) (req : PageRequest),
      req ∈ (paginateLoop url params perPage eff acc pages).2 →
      ∃ n : Int, (acc.length : Int) ≤ n ∧ req.method = "GET" ∧ req.url = url ∧
        lookupA req.params "startIndex" = some (.num n) ∧
        lookupA req.params "limit" = some (.num (min (eff - n) perPage)) := by
  intro pages
  induction pages with
  | nil =>
      intro acc req h
      simp [paginateLoop] at h
  | cons o rest ih =>
      intro acc req h
      have hhead : ∀ q : PageRequest,
          q = (⟨"GET", url,
            assocSet (assocSet params "startIndex" (.num (acc.length : Int))) "limit"
              (.num (min (eff - (acc.length : Int)) perPage))⟩ : PageRequest) →
          ∃ n : Int, (acc.length : Int) ≤ n ∧ q.method = "GET" ∧ q.url = url ∧
            lookupA q.params "startIndex" = some (.num n) ∧
            lookupA q.params "limit" = some (.num (min (eff - n) perPage)) := by
        rintro q rfl
        refine ⟨(acc.length : Int), le_refl _, rfl, rfl, ?_, ?_⟩
        · rw [lookupA_assocSet, if_neg (by decide), lookupA_assocSet, if_pos rfl]
        · rw [lookupA_assocSet, if_pos rfl]
      simp only [paginateLoop] at h
      cases hpo : processOutcome o with
      | error e =>
          rw [hpo] at h
          simp only [List.mem_singleton] at h
          exact hhead req h
      | ok body =>
          rw [hpo] at h
          simp only at h
          by_cases hemp : (getFeatures body).isEmpty
          · rw [if_pos hemp] at h
            simp only [List.mem_singleton] at h
            exact hhead req h
          · rw [if_neg hemp] at h
            by_cases hdone : eff ≤ (((acc ++ getFeatures body).length : Nat) : Int)
            · rw [if_pos hdone] at h
              simp only [List.mem_singleton] at h
              exact hhead req h
            · rw [if_neg hdone] at h
              simp only [List.mem_cons] at h
              rcases h with h | h
              · exact hhead req h
              · obtain ⟨n, hn, hm, hu, hs, hl⟩ := ih (acc ++ getFeatures body) req h
                refine ⟨n, le_trans ?_ hn, hm, hu, hs, hl⟩
                simp

theorem replicate_ne_nil_of_pos {α : Type} (n : Nat) (x : α) (h : 0 < n) :
    List.replicate n x ≠ [] := by
  intro hc
  have hl := congrArg List.length hc
  simp only [List.length_replicate, List.length_nil] at hl
  omega

/-- First page of the limit-capping scenario: 50000 features against
`numberMatched = 8000000` (features are opaque to the engine, so they are
modelled as nulls). -/
def c1FirstBody : Json :=
  .obj [("type", .str "FeatureCollection"),
    ("features", .arr (List.replicate 50000 .null)),
    ("numberReturned", .num 50000), ("numberMatched", .num 8000000),
    ("timeStamp", .str "2024-01-01T12:00:00Z"), ("links", .arr [])]

/-- Second page of the limit-capping scenario: the remaining 10000 features. -/
def c1SecondBody : Json :=
  .obj [("type", .str "FeatureCollection"),
    ("features", .arr (List.replicate 10000 .null)),
    ("numberReturned", .num 10000), ("numberMatched", .num 8000000)]

/-- C1: every pagination request carries `startIndex` equal to a count `n` of
features accumulated before it (at least the features of the pages already
merged) and `limit = min(effective_limit - n, per-page size)`; in particular
requesting `limit = 60000` against `numberMatched = 8000000` with a
50000-feature first page triggers exactly one more request, with
`startIndex = 50000` and `limit = 10000`, and the merged envelope has
`numberReturned = 60000`. -/
theorem pagination_next_page_request_params :
    (∀ (url : String) (params : List (String × Json)) (perPage eff : Int)
      (pages : List TransportOutcome) (acc : List Json) (req : PageRequest),
      req ∈ (paginateLoop url params perPage eff acc pages).2 →
      ∃ n : Int, (acc.length : Int) ≤ n ∧ req.method = "GET" ∧ req.url = url ∧
        lookupA req.params "startIndex" = some (.num n) ∧
        lookupA req.params "limit" = some (.num (min (eff - n) perPage))) ∧
    clientRequest "GET" "/test" [("limit", .num 60000)]
        [.resp ⟨true, 200, some c1FirstBody, ""⟩,
         .resp ⟨true, 200, some c1SecondBody, ""⟩] =
      (.ok (mergeEnvelope c1FirstBody
          (List.replicate 50000 Json.null ++ List.replicate 10000 Json.null)),
        [⟨"GET", "/test", [("limit", .num 60000)]⟩,
         ⟨"GET", "/test", [("limit", .num 10000), ("startIndex", .num 50000)]⟩]) ∧
    (mergeEnvelope c1FirstBody
        (List.replicate 50000 Json.null ++ List.replicate 10000 Json.null)).lookup
      "numberReturned" = some (.num 60000) := by
  refine ⟨fun url params perPage eff pages acc req h =>
    paginateLoop_trace_params url params perPage eff pages acc req h, ?_, ?_⟩
  · have e1 : processOutcome (.resp ⟨true, 200, some c1FirstBody, ""⟩) =
        .ok c1FirstBody := rfl
    rw [clientRequest_get_ok "/test" [("limit", .num 60000)] c1FirstBody
      (.resp ⟨true, 200, some c1FirstBody, ""⟩)
      [.resp ⟨true, 200, some c1SecondBody, ""⟩] e1]
    rw [handlePagination_run "/test" [("limit", .num 60000)] c1FirstBody
      [.resp ⟨true, 200, some c1SecondBody, ""⟩] 8000000 50000 60000 rfl rfl rfl rfl
      (by norm_num) (by norm_num [min_def])]
    rw [show min (8000000 : Int) 60000 = 60000 from by norm_num [min_def]]
    rw [show getFeatures c1FirstBody = List.replicate 50000 Json.null from rfl]
    have e2 : processOutcome (.resp ⟨true, 200, some c1SecondBody, ""⟩) =
        .ok c1SecondBody := rfl
    have hg2 : getFeatures c1SecondBody = List.replicate 10000 Json.null := rfl
    rw [paginateLoop_step_done "/test" [("limit", .num 60000)] 50000 60000
      (List.replicate 50000 Json.null) (.resp ⟨true, 200, some c1SecondBody, ""⟩) []
      c1SecondBody e2
      (by rw [hg2]; exact replicate_ne_nil_of_pos 10000 Json.null (by norm_num))
      (by rw [hg2, List.length_append, List.length_replicate, List.length_replicate]
          norm_num)]
    rw [hg2]
    dsimp only [Except.map]
    rw [List.length_replicate]
    norm_num [min_def]
    simp [assocSet]
  · unfold c1FirstBody
    rw [lookup_mergeEnvelope]
    rw [if_pos rfl, List.length_append, List.length_replicate, List.length_replicate]
    norm_num

/-- The outcome answering the small next-page request used to witness C1's
universal part: a one-feature page. -/
def c1SmallOutcome : TransportOutcome :=
  .resp ⟨true, 200,
    some (.obj [("type", .str "FeatureCollection"),
      ("features", .arr [.str "f3"]),
      ("numberReturned", .num 1), ("numberMatched", .num 3)]), ""⟩

/-- Witness for C1: in a loop with two features already accumulated,
an effective limit of 3 and per-page size 2, the recorded request carries
`startIndex = 2` and `limit = min(3 - 2, 2) = 1`. -/
theorem pagination_next_page_request_params_witness :
    (⟨"GET", "/test", [("limit", .num 1), ("startIndex", .num 2)]⟩ : PageRequest) ∈
      (paginateLoop "/test" [("limit", .num 100)] 2 3 [.str "f1", .str "f2"]
        [c1SmallOutcome]).2 ∧
    ∃ n : Int, (([Json.str "f1", Json.str "f2"].length : Nat) : Int) ≤ n ∧
      (⟨"GET", "/test", [("limit", .num 1), ("startIndex", .num 2)]⟩ : PageRequest).method =
        "GET" ∧
      (⟨"GET", "/test", [("limit", .num 1), ("startIndex", .num 2)]⟩ : PageRequest).url =
        "/test" ∧
      lookupA (⟨"GET", "/test", [("limit", .num 1), ("startIndex", .num 2)]⟩ :
        PageRequest).params "startIndex" = some (.num n) ∧
      lookupA (⟨"GET", "/test", [("limit", .num 1), ("startIndex", .num 2)]⟩ :
        PageRequest).params "limit" = some (.num (min (3 - n) 2)) := by
  have hm : (⟨"GET", "/test", [("limit", .num 1), ("startIndex", .num 2)]⟩ : PageRequest) ∈
      (paginateLoop "/test" [("limit", .num 100)] 2 3 [.str "f1", .str "f2"]
        [c1SmallOutcome]).2 := by
    rw [show (paginateLoop "/test" [("limit", .num 100)] 2 3 [.str "f1", .str "f2"]
      [c1SmallOutcome]).2 =
      [⟨"GET", "/test", [("limit", .num 1), ("startIndex", .num 2)]⟩] from rfl]
    exact List.mem_singleton.mpr rfl
  exact ⟨hm, pagination_next_page_request_params.1 "/test" [("limit", .num 100)] 2 3
    [c1SmallOutcome] [.str "f1", .str "f2"] _ hm⟩

/-! ## C3: empty page stops pagination with success -/

/-- First page of the empty-page scenario: 100 features against
`numberMatched = 200`. -/
def c3FirstBody : Json :=
  .obj [("type", .str "FeatureCollection"),
    ("features", .arr (List.replicate 100 .null)),
    ("numberReturned", .num 100), ("numberMatched", .num 200)]

/-- Second page of the empty-page scenario: no features at all, even though
the provider claimed 200 matches. -/
def c3EmptyBody : Json :=
  .obj [("type", .str "FeatureCollection"), ("features", .arr []),
    ("numberReturned", .num 0), ("numberMatched", .num 200)]

/-- C3: a fetched page with zero features stops the loop immediately with
success, keeping only the features accumulated so far, even though the
accumulated count is below the effective limit; concretely, a first page
reporting `numberMatched = 200` followed by an empty second page makes
exactly 2 HTTP calls and merges to `numberReturned = 100`, the first page's
count only. -/
theorem pagination_empty_page_early_stop :
    (∀ (url : String) (params : List (String × Json)) (perPage eff : Int)
      (acc : List Json) (o : TransportOutcome) (rest : List TransportOutcome)
      (body : Json), processOutcome o = .ok body → getFeatures body = [] →
      paginateLoop url params perPage eff acc (o :: rest) =
        (.ok acc,
          [⟨"GET", url,
            assocSet (assocSet params "startIndex" (.num (acc.length : Int))) "limit"
              (.num (min (eff - (acc.length : Int)) perPage))⟩])) ∧
    clientRequest "GET" "/test" [("limit", .num 200)]
        [.resp ⟨true, 200, some c3FirstBody, ""⟩,
         .resp ⟨true, 200, some c3EmptyBody, ""⟩] =
      (.ok (mergeEnvelope c3FirstBody (List.replicate 100 Json.null)),
        [⟨"GET", "/test", [("limit", .num 200)]⟩,
         ⟨"GET", "/test", [("limit", .num 100), ("startIndex", .num 100)]⟩]) ∧
    (mergeEnvelope c3FirstBody (List.replicate 100 Json.null)).lookup "numberReturned" =
      some (.num 100) := by
  refine ⟨fun url params perPage eff acc o rest body ho hemp =>
    paginateLoop_step_empty url params perPage eff acc o rest body ho hemp, ?_, ?_⟩
  · have e1 : processOutcome (.resp ⟨true, 200, some c3FirstBody, ""⟩) =
        .ok c3FirstBody := rfl
    rw [clientRequest_get_ok "/test" [("limit", .num 200)] c3FirstBody
      (.resp ⟨true, 200, some c3FirstBody, ""⟩)
      [.resp ⟨true, 200, some c3EmptyBody, ""⟩] e1]
    rw [handlePagination_run "/test" [("limit", .num 200)] c3FirstBody
      [.resp ⟨true, 200, some c3EmptyBody, ""⟩] 200 100 200 rfl rfl rfl rfl
      (by norm_num) (by norm_num [min_def])]
    rw [show min (200 : Int) 200 = 200 from by norm_num [min_def]]
    rw [show getFeatures c3FirstBody = List.replicate 100 Json.null from rfl]
    have e2 : processOutcome (.resp ⟨true, 200, some c3EmptyBody, ""⟩) =
        .ok c3EmptyBody := rfl
    rw [paginateLoop_step_empty "/test" [("limit", .num 200)] 100 200
      (List.replicate 100 Json.null) (.resp ⟨true, 200, some c3EmptyBody, ""⟩) []
      c3EmptyBody e2 rfl]
    dsimp only [Except.map]
    rw [List.length_replicate]
    norm_num [min_def]
    simp [assocSet]
  · unfold c3FirstBody
    rw [lookup_mergeEnvelope]
    rw [if_pos rfl, List.length_replicate]
    norm_num

/-- Witness for C3: a concrete one-feature accumulator stopped by an empty
page after a single follow-up request. -/
theorem pagination_empty_page_early_stop_witness :
    paginateLoop "/x" [] 5 9 [.str "a"]
        [.resp ⟨true, 200, some c3EmptyBody, ""⟩] =
      (.ok [.str "a"],
        [⟨"GET", "/x",
          assocSet (assocSet [] "startIndex" (.num (([Json.str "a"].length : Nat) : Int)))
            "limit" (.num (min (9 - (([Json.str "a"].length : Nat) : Int)) 5))⟩]) :=
  pagination_empty_page_early_stop.1 "/x" [] 5 9 [.str "a"]
    (.resp ⟨true, 200, some c3EmptyBody, ""⟩) [] c3EmptyBody rfl rfl

/-! ## C7: single-item lookup invariants -/

/-- C7: every by-ID lookup (`get_station`, `get_measurement`, `get_area`,
`get_level`) wraps a collection fetch and enforces: zero features raise a
not-found error, two or more raise a multiple-returned error, and exactly one
feature is returned as the result. -/
theorem single_item_lookup_invariants :
    ∀ (response : Json) (idStr : String),
      (getFeatures response = [] →
        get_station response idStr = .error ("Station " ++ idStr ++ " not found") ∧
        get_measurement response idStr =
          .error ("Measurement " ++ idStr ++ " not found") ∧
        get_area response idStr = .error ("Area " ++ idStr ++ " not found") ∧
        get_level response idStr = .error ("Level " ++ idStr ++ " not found")) ∧
      (∀ f, getFeatures response = [f] →
        get_station response idStr = .ok f ∧
        get_measurement response idStr = .ok f ∧
        get_area response idStr = .ok f ∧
        get_level response idStr = .ok f) ∧
      (∀ f g rest, getFeatures response = f :: g :: rest →
        get_station response idStr =
          .error ("Multiple stations returned for ID " ++ idStr) ∧
        get_measurement response idStr =
          .error ("Multiple measurements returned for ID " ++ idStr) ∧
        get_area response idStr =
          .error ("Multiple areas returned for ID " ++ idStr) ∧
        get_level response idStr =
          .error ("Multiple levels returned for ID " ++ idStr)) := by
  intro response idStr
  refine ⟨fun h => ?_, fun f h => ?_, fun f g rest h => ?_⟩
  · exact ⟨by simp [get_station, h], by simp [get_measurement, h],
      by simp [get_area, h], by simp [get_level, h]⟩
  · exact ⟨by simp [get_station, h], by simp [get_measurement, h],
      by simp [get_area, h], by simp [get_level, h]⟩
  · have hlen : 1 < (getFeatures response).length := by rw [h]; simp
    have hne : ¬ (getFeatures response).isEmpty = true := by
      rw [h]; simp
    exact ⟨by simp only [get_station, if_neg hne, if_pos hlen],
      by simp only [get_measurement, if_neg hne, if_pos hlen],
      by simp only [get_area, if_neg hne, if_pos hlen],
      by simp only [get_level, if_neg hne, if_pos hlen]⟩

/-- Witness for C7 on concrete responses with zero, one and two features. -/
theorem single_item_lookup_invariants_witness :
    get_station (.obj [("features", .arr [])]) "S1" =
      .error ("Station " ++ "S1" ++ " not found") ∧
    get_measurement (.obj [("features", .arr [.str "m"])]) "M1" = .ok (.str "m") ∧
    get_area (.obj [("features", .arr [.str "a", .str "b"])]) "A1" =
      .error ("Multiple areas returned for ID " ++ "A1") :=
  ⟨((single_item_lookup_invariants (.obj [("features", .arr [])]) "S1").1 rfl).1,
    ((single_item_lookup_invariants (.obj [("features", .arr [.str "m"])]) "M1").2.1
      (.str "m") rfl).2.1,
    ((single_item_lookup_invariants (.obj [("features", .arr [.str "a", .str "b"])])
      "A1").2.2 (.str "a") (.str "b") [] rfl).2.2.1⟩

/-- Witness for C10 on a concrete keyword mapping: `bbox` is comma-joined
from its elements' string forms, a `None`-valued `datetime` is dropped,
`limit` passes through unchanged, and a list-valued `sortby` is comma-joined. -/
theorem build_query_params_characterization_witness :
    lookupA (ObservedGroundwaterLevelClient.build_query_params
        [("bbox", some (.arr [.num 16, .num 57])), ("datetime", none),
          ("limit", some (.num 10)), ("sortby", some (.arr [.str "+name"]))]) "bbox" =
      some (.str (String.intercalate ","
        ([Json.num 16, Json.num 57].map Json.pyStr))) ∧
    ¬ (∃ w, lookupA (ObservedGroundwaterLevelClient.build_query_params
        [("bbox", some (.arr [.num 16, .num 57])), ("datetime", none),
          ("limit", some (.num 10)), ("sortby", some (.arr [.str "+name"]))])
        "datetime" = some w) ∧
    lookupA (ObservedGroundwaterLevelClient.build_query_params
        [("bbox", some (.arr [.num 16, .num 57])), ("datetime", none),
          ("limit", some (.num 10)), ("sortby", some (.arr [.str "+name"]))]) "limit" =
      some (.num 10) ∧
    lookupA (ObservedGroundwaterLevelClient.build_query_params
        [("bbox", some (.arr [.num 16, .num 57])), ("datetime", none),
          ("limit", some (.num 10)), ("sortby", some (.arr [.str "+name"]))]) "sortby" =
      some (.str (String.intercalate "," ([Json.str "+name"].map Json.pyStr))) := by
  refine ⟨build_query_params_characterization.2.2.1 _ [.num 16, .num 57] rfl, ?_, ?_, ?_⟩
  · intro hw
    obtain ⟨v, hv⟩ := (build_query_params_characterization.2.1 _ "datetime").mp hw
    simp at hv
  · exact build_query_params_characterization.2.2.2.2 _ "limit" (.num 10) rfl
      (fun _ => rfl) (fun _ => rfl)
  · exact build_query_params_characterization.2.2.2.1 _ [.str "+name"] rfl
      (by intro x hx; simp at hx; exact ⟨"+name", hx⟩)
